import Mathlib

/-!
Verification of `train.py` from the CriticalPeriod-Classification repository.

The script trains a CIFAR-10 classifier with a simulated "cataract" deficit:
a blur transform (`DownUpSampleTransform`) sits in the training pipeline and
is removed by a callback when the current epoch equals `deficit_epoch`.

We shallowly embed the transform pipeline, the blur transform's tensor
computation (bilinear interpolation over ℚ, `align_corners=False`), the
callback, the optimizer/scheduler configuration, the trainer configuration,
and the training/validation step functions, and prove the specified
properties about them.
-/

namespace CriticalPeriod

/-! ## Transform pipeline (train.py lines 42-53)

Each element of a `torchvision.transforms.Compose` list is represented by a
constructor carrying the arguments the script passes. -/

inductive Transform where
  | randomHorizontalFlip (p : ℚ)
  | randomAffine (degrees : ℚ) (translateX translateY : ℚ)
  | toTensor
  | downUpSample
  | normalize (m1 m2 m3 s1 s2 s3 : ℚ)
deriving DecidableEq, Repr

/-- Embedding of `train_transforms`, train.py lines 42-48: flip (default p = 0.5),
translate up to 4 of 32 pixels per axis, ToTensor, the blur transform, and
Normalize with the CIFAR-10 mean/std constants. -/
def train_transforms : List Transform :=
  [ Transform.randomHorizontalFlip (1/2),
    Transform.randomAffine 0 (4/32) (4/32),
    Transform.toTensor,
    Transform.downUpSample,
    Transform.normalize (4914/10000) (4822/10000) (4465/10000)
      (247/1000) (243/1000) (261/1000) ]

/-- Embedding of `test_transforms`, train.py lines 50-53: ToTensor then Normalize with
the same constants. -/
def test_transforms : List Transform :=
  [ Transform.toTensor,
    Transform.normalize (4914/10000) (4822/10000) (4465/10000)
      (247/1000) (243/1000) (261/1000) ]

/-! ## Configuration (train.py lines 12-27)

`parse_args` yields a flat record; we keep the numeric fields the claims
mention, with the argparse defaults. -/

structure Args where
  batch_size : ℕ
  lr : ℚ
  momentum : ℚ
  weight_decay : ℚ
  epochs_after_deficit : ℕ
  gamma : ℚ
  num_workers : ℕ
  deficit_epoch : ℕ
deriving DecidableEq, Repr

def defaultArgs : Args :=
  { batch_size := 128
    lr := 1/10
    momentum := 9/10
    weight_decay := 5/10000
    epochs_after_deficit := 160
    gamma := 1/10
    num_workers := 8
    deficit_epoch := 0 }

/-! ## Mutable program state touched by the callback

The callback holds a reference to the training dataset and rewrites its
`transform` field; the validation dataset, the model parameters and the
configuration are other live program state it could in principle touch.
`modelParams` stands for the network's parameter vector, kept abstract as a
list of rationals. -/

structure TrainState where
  trainTransform : List Transform
  valTransform : List Transform
  modelParams : List ℚ
  config : Args
deriving DecidableEq, Repr

/-! ## RemoveCataractTransformCallback (train.py lines 116-129) -/

/-- The pipeline rewrite on line 125-127: keep exactly the steps that are not
`DownUpSampleTransform` instances, in order. -/
def removeCataract (p : List Transform) : List Transform :=
  p.filter (fun t => t ≠ Transform.downUpSample)

/-- Embedding of `on_train_epoch_start` (train.py lines 122-129): when
`trainer.current_epoch == self.t0`, replace the training dataset's transform
by the filtered pipeline; otherwise do nothing. -/
def on_train_epoch_start (t0 : ℕ) (current_epoch : ℕ) (s : TrainState) : TrainState :=
  if current_epoch = t0 then
    { s with trainTransform := removeCataract s.trainTransform }
  else
    s

/-! ## Trainer configuration (train.py lines 146-157) -/

structure TrainerConfig where
  max_epochs : ℕ
  enable_checkpointing : Bool
  callback_t0 : ℕ
deriving DecidableEq, Repr

/-- The `pl.Trainer(...)` construction: `max_epochs` is
`args.deficit_epoch + args.epochs_after_deficit`, checkpointing is disabled,
and the single callback is `RemoveCataractTransformCallback(args.deficit_epoch, ...)`. -/
def trainerOf (a : Args) : TrainerConfig :=
  { max_epochs := a.deficit_epoch + a.epochs_after_deficit
    enable_checkpointing := false
    callback_t0 := a.deficit_epoch }

/-- The epochs the fit loop visits: `0, 1, ..., max_epochs - 1`, with no
cancellation, timeout or retry — the loop is a plain fold over this list. -/
def fitEpochs (a : Args) : List ℕ :=
  List.range (trainerOf a).max_epochs

/-- Running the whole fit loop's epoch-start hooks in order. -/
def runHooks (a : Args) (s : TrainState) : TrainState :=
  (fitEpochs a).foldl (fun st e => on_train_epoch_start (trainerOf a).callback_t0 e st) s

/-! ## Tensors and `DownUpSampleTransform` (train.py lines 32-39)

A tensor is a shape together with an access function from index lists to
rational values (the pixel type; PyTorch uses floats, the claims here are
about shapes and structural data flow, for which exact rationals are a
faithful carrier). -/

structure Tensor where
  shape : List ℕ
  data : List ℕ → ℚ

/-- Embedding of `t.unsqueeze(0)`: prepend a dimension of size 1. -/
def Tensor.unsqueeze0 (t : Tensor) : Tensor :=
  { shape := 1 :: t.shape, data := fun idx => t.data idx.tail }

/-- Embedding of `t.squeeze(0)`: drop the leading dimension when it has size 1. -/
def Tensor.squeeze0 (t : Tensor) : Tensor :=
  if t.shape.headI = 1 then
    { shape := t.shape.tail, data := fun idx => t.data (0 :: idx) }
  else
    t

/-- Source coordinate for bilinear interpolation with `align_corners=False`:
`(dst + 0.5) * (inSize / outSize) - 0.5`, clamped below at 0, as in PyTorch's
`area_pixel_compute_source_index`. -/
def srcIndex (inSize outSize j : ℕ) : ℚ :=
  max 0 (((j : ℚ) + 1/2) * inSize / outSize - 1/2)

/-- One-dimensional linear interpolation of `f : index → value` (input length
`inSize`) at output position `j` of `outSize`: blend the two neighbouring
input samples with the fractional weight, clamping the upper neighbour at the
last valid index. -/
def interp1D (inSize outSize : ℕ) (f : ℕ → ℚ) (j : ℕ) : ℚ :=
  let s := srcIndex inSize outSize j
  let i0 := (⌊s⌋).toNat
  let i1 := if i0 + 1 ≤ inSize - 1 then i0 + 1 else i0
  let lam := s - (i0 : ℚ)
  (1 - lam) * f i0 + lam * f i1

/-- Bilinear interpolation of a 2-D grid, separable along the two axes. -/
def bilinear2D (inH inW outH outW : ℕ) (f : ℕ → ℕ → ℚ) (i j : ℕ) : ℚ :=
  interp1D inH outH (fun y => interp1D inW outW (fun x => f y x) j) i

/-- Embedding of `F.interpolate(t, size=(outH, outW), mode='bilinear', align_corners=False)`:
defined only on 4-D input `N×C×H×W` (PyTorch raises otherwise), yielding a
tensor of shape `N×C×outH×outW` whose entries are bilinear blends of the
input. -/
def interpolate (t : Tensor) (outH outW : ℕ) : Option Tensor :=
  match t.shape with
  | [n, c, h, w] =>
      some { shape := [n, c, outH, outW]
             data := fun idx =>
               match idx with
               | [a, b, i, j] => bilinear2D h w outH outW (fun y x => t.data [a, b, y, x]) i j
               | _ => 0 }
  | _ => none

namespace DownUpSampleTransform

/-- Embedding of `DownUpSampleTransform.__call__` (train.py lines 34-39): unsqueeze to 4-D,
downsample to 8×8, upsample to 32×32 (both bilinear, `align_corners=False`),
squeeze the batch dimension back off. Returns `none` exactly when an
interpolation step would raise (non-3-D input). -/
def call (img : Tensor) : Option Tensor := do
  let a ← interpolate img.unsqueeze0 8 8
  let b ← interpolate a 32 32
  pure b.squeeze0

end DownUpSampleTransform

/-! ## CIFAR10Classifier (train.py lines 77-112)

The network (`create_modified_resnet18`) and the loss (`nn.CrossEntropyLoss`)
are external library components held in the module's fields `self.model` and
`self.criterion`; we keep them as abstract function-valued fields, exactly as
the step code treats them. A forward pass maps a batch of images to one row
of 10 logits per image. -/

structure CIFAR10Classifier where
  model : List Tensor → List (List ℚ)
  criterion : List (List ℚ) → List ℕ → ℚ

/-- Embedding of `torch.argmax` over one row of logits: index of the first maximal value. -/
def argmaxAux : List ℚ → ℕ → ℕ → ℚ → ℕ
  | [], _, best, _ => best
  | x :: xs, i, best, bv =>
      if bv < x then argmaxAux xs (i + 1) i x else argmaxAux xs (i + 1) best bv

def argmax : List ℚ → ℕ
  | [] => 0
  | x :: xs => argmaxAux xs 1 0 x

/-- Embedding of `(outputs.argmax(dim=1) == targets).float().mean()`. -/
def accuracy (outputs : List (List ℚ)) (targets : List ℕ) : ℚ :=
  (List.zipWith (fun o t => if argmax o = t then (1 : ℚ) else 0) outputs targets).sum
    / (outputs.length : ℚ)

/-- A batch as the step functions receive it: `(images, targets)`. -/
structure Batch where
  images : List Tensor
  targets : List ℕ

/-- What a step emits: the `self.log(name, value)` calls in order, and the
step's return value (`some loss` for training, `none` for validation). -/
structure StepResult where
  logs : List (String × ℚ)
  ret : Option ℚ

/-- Embedding of `training_step` (train.py lines 88-96): forward pass, cross-entropy loss,
top-1 accuracy; logs `train_loss` and `train_acc`; returns the loss. -/
def training_step (m : CIFAR10Classifier) (batch : Batch) : StepResult :=
  let outputs := m.model batch.images
  let loss := m.criterion outputs batch.targets
  let acc := accuracy outputs batch.targets
  { logs := [("train_loss", loss), ("train_acc", acc)], ret := some loss }

/-- Embedding of `validation_step` (train.py lines 98-105): same computation; logs
`val_loss` and `val_acc`; returns nothing. -/
def validation_step (m : CIFAR10Classifier) (batch : Batch) : StepResult :=
  let outputs := m.model batch.images
  let loss := m.criterion outputs batch.targets
  let acc := accuracy outputs batch.targets
  { logs := [("val_loss", loss), ("val_acc", acc)], ret := none }

/-! ## configure_optimizers (train.py lines 107-112) -/

structure SGDConfig where
  lr : ℚ
  momentum : ℚ
  weight_decay : ℚ
deriving DecidableEq, Repr

structure StepLRConfig where
  step_size : ℕ
  gamma : ℚ
deriving DecidableEq, Repr

/-- Embedding of `configure_optimizers`: SGD from the hyperparameters, and
`StepLR(optimizer, step_size=1, gamma=0.97)` with the decay factor written as
a literal, not read from the configuration. -/
def configure_optimizers (a : Args) : SGDConfig × StepLRConfig :=
  ({ lr := a.lr, momentum := a.momentum, weight_decay := a.weight_decay },
   { step_size := 1, gamma := 97/100 })

/-- Semantics of `StepLR`: the learning rate in force at `epoch` is
`lr * gamma ^ (epoch / step_size)`. -/
def stepLRAt (opt : SGDConfig) (sch : StepLRConfig) (epoch : ℕ) : ℚ :=
  opt.lr * sch.gamma ^ (epoch / sch.step_size)

/-- Learning rate of the run at a given epoch, as configured. -/
def lrAt (a : Args) (epoch : ℕ) : ℚ :=
  stepLRAt (configure_optimizers a).1 (configure_optimizers a).2 epoch

/-! ## Concrete sample data for witnesses and counterexamples -/

/-- A concrete program state with the initial training pipeline attached. -/
def sampleState : TrainState :=
  { trainTransform := train_transforms
    valTransform := test_transforms
    modelParams := [1, 2, 3]
    config := defaultArgs }

/-- A concrete 3×16×16 image. -/
def sampleImage16 : Tensor :=
  { shape := [3, 16, 16], data := fun _ => 0 }

/-- A concrete 3×32×32 image. -/
def sampleImage32 : Tensor :=
  { shape := [3, 32, 32], data := fun _ => 1/2 }

/-! ## Theorems -/

/-- C1: the deficit-removal hook fires exactly when the current epoch equals
the threshold `t0`: at any other epoch (on either side) it leaves the whole
state, in particular the training pipeline, unchanged; at `t0` it sets the
training pipeline to the filtered pipeline. -/
theorem hook_fires_iff_epoch_eq_t0 (t0 e : ℕ) (s : TrainState) :
    (e ≠ t0 → on_train_epoch_start t0 e s = s) ∧
    (e = t0 →
      (on_train_epoch_start t0 e s).trainTransform = removeCataract s.trainTransform) := by
  constructor
  · intro h
    simp [on_train_epoch_start, h]
  · intro h
    subst h
    simp [on_train_epoch_start]

/-- C1 witness: at threshold 2, epoch 3 (above) leaves the state unchanged and
epoch 2 rewrites the pipeline. -/
theorem hook_fires_iff_epoch_eq_t0_witness :
    on_train_epoch_start 2 3 sampleState = sampleState ∧
    (on_train_epoch_start 2 2 sampleState).trainTransform
      = removeCataract sampleState.trainTransform :=
  ⟨(hook_fires_iff_epoch_eq_t0 2 3 sampleState).1 (by decide),
   (hook_fires_iff_epoch_eq_t0 2 2 sampleState).2 rfl⟩

/-- C2: when the hook fires, the new training pipeline is the previous one
with every `DownUpSampleTransform` step excluded; it is a sublist of the
previous pipeline, so the relative order of remaining steps is preserved; and
starting from the initial training pipeline the result is
[flip, translate, to-tensor, normalize]. -/
theorem hook_effect_removes_blur (t0 : ℕ) (s : TrainState) :
    (on_train_epoch_start t0 t0 s).trainTransform
      = s.trainTransform.filter (fun t => t ≠ Transform.downUpSample) ∧
    List.Sublist (on_train_epoch_start t0 t0 s).trainTransform s.trainTransform ∧
    (s.trainTransform = train_transforms →
      (on_train_epoch_start t0 t0 s).trainTransform
        = [ Transform.randomHorizontalFlip (1/2),
            Transform.randomAffine 0 (4/32) (4/32),
            Transform.toTensor,
            Transform.normalize (4914/10000) (4822/10000) (4465/10000)
              (247/1000) (243/1000) (261/1000) ]) := by
  refine ⟨?_, ?_, ?_⟩
  · simp [on_train_epoch_start, removeCataract]
  · simp only [on_train_epoch_start, if_pos rfl]
    exact List.filter_sublist _
  · intro h
    simp [on_train_epoch_start, removeCataract, h, train_transforms]

/-- C2 witness: the concrete initial pipeline is rewritten to the four-step
pipeline without the blur step. -/
theorem hook_effect_removes_blur_witness :
    (on_train_epoch_start 0 0 sampleState).trainTransform
      = [ Transform.randomHorizontalFlip (1/2),
          Transform.randomAffine 0 (4/32) (4/32),
          Transform.toTensor,
          Transform.normalize (4914/10000) (4822/10000) (4465/10000)
            (247/1000) (243/1000) (261/1000) ] :=
  (hook_effect_removes_blur 0 sampleState).2.2 rfl

/-- C3 counterexample: the blur transform does not return a tensor of the
input's shape for every 3×H×W input — both interpolation sizes are hardcoded,
so a 3×16×16 input comes back as 3×32×32, not 3×16×16. -/
theorem downUpSample_shape_counterexample :
    (DownUpSampleTransform.call sampleImage16).map Tensor.shape = some [3, 32, 32] ∧
    some ([3, 32, 32] : List ℕ) ≠ some [3, 16, 16] := by
  constructor
  · rfl
  · decide

/-- C3 (amended): for every 3×H×W input tensor the blur transform returns a
tensor of shape 3×32×32, obtained by bilinearly downsampling to an 8×8 grid
and bilinearly upsampling to the fixed 32×32 output resolution, both without
corner alignment; in particular, for 3×32×32 inputs the shape is preserved
exactly. -/
theorem downUpSample_shape (img : Tensor) (h w : ℕ) (hs : img.shape = [3, h, w]) :
    (DownUpSampleTransform.call img).map Tensor.shape = some [3, 32, 32] ∧
    (img.shape = [3, 32, 32] →
      (DownUpSampleTransform.call img).map Tensor.shape = some img.shape) := by
  constructor
  · simp [DownUpSampleTransform.call, interpolate, Tensor.unsqueeze0, Tensor.squeeze0, hs]
  · intro h32
    simp [DownUpSampleTransform.call, interpolate, Tensor.unsqueeze0, Tensor.squeeze0, h32]

/-- C3 witness: the concrete 3×32×32 image keeps its shape through the blur
transform. -/
theorem downUpSample_shape_witness :
    (DownUpSampleTransform.call sampleImage32).map Tensor.shape = some [3, 32, 32] :=
  (downUpSample_shape sampleImage32 32 32 rfl).1

/-- C4: the blur transform is a deterministic pure function: on any
well-formed (3×H×W) input it returns a value rather than raising (the
embedding yields `some`), and two invocations on equal inputs produce equal
outputs. The absence of input mutation is reflected by the embedding itself:
the call consumes its argument by value and every step
(`unsqueeze`/`interpolate`/`squeeze`) constructs a new tensor. -/
theorem downUpSample_pure (img img₂ : Tensor) (h w : ℕ)
    (hs : img.shape = [3, h, w]) (heq : img₂ = img) :
    (DownUpSampleTransform.call img).isSome = true ∧
    DownUpSampleTransform.call img₂ = DownUpSampleTransform.call img := by
  constructor
  · simp [DownUpSampleTransform.call, interpolate, Tensor.unsqueeze0, hs]
  · exact congrArg DownUpSampleTransform.call heq

/-- C4 witness: on the concrete 3×32×32 image the call succeeds and is
reproducible. -/
theorem downUpSample_pure_witness :
    (DownUpSampleTransform.call sampleImage32).isSome = true ∧
    DownUpSampleTransform.call sampleImage32 = DownUpSampleTransform.call sampleImage32 :=
  downUpSample_pure sampleImage32 sampleImage32 32 32 rfl rfl

/-- C5: the training pipeline is exactly the ordered five-step sequence
[flip with probability 0.5, translate up to 4 of 32 pixels per axis,
to-tensor, blur-resample, normalize with the fixed CIFAR-10 constants], and
the evaluation pipeline is exactly [to-tensor, normalize] — containing no
augmentation step and no blur step. -/
theorem pipelines_as_constructed :
    train_transforms
      = [ Transform.randomHorizontalFlip (1/2),
          Transform.randomAffine 0 (4/32) (4/32),
          Transform.toTensor,
          Transform.downUpSample,
          Transform.normalize (4914/10000) (4822/10000) (4465/10000)
            (247/1000) (243/1000) (261/1000) ] ∧
    test_transforms
      = [ Transform.toTensor,
          Transform.normalize (4914/10000) (4822/10000) (4465/10000)
            (247/1000) (243/1000) (261/1000) ] ∧
    Transform.downUpSample ∉ test_transforms ∧
    (∀ p, Transform.randomHorizontalFlip p ∉ test_transforms) ∧
    (∀ d x y, Transform.randomAffine d x y ∉ test_transforms) := by
  refine ⟨rfl, rfl, by decide, ?_, ?_⟩
  · intro p hp
    simp [test_transforms] at hp
  · intro d x y hp
    simp [test_transforms] at hp

/-- C6: the trainer's maximum epoch count is exactly
`deficit_epoch + epochs_after_deficit`, and the fit loop is a plain fold over
the epochs `0 … max_epochs - 1`: it visits exactly that many epochs and
stops, with no cancellation, timeout or retry path in the model. -/
theorem trainer_runs_fixed_epoch_count (a : Args) :
    (trainerOf a).max_epochs = a.deficit_epoch + a.epochs_after_deficit ∧
    fitEpochs a = List.range (a.deficit_epoch + a.epochs_after_deficit) ∧
    (fitEpochs a).length = a.deficit_epoch + a.epochs_after_deficit := by
  refine ⟨rfl, rfl, ?_⟩
  simp [fitEpochs, trainerOf]

/-- C7: the learning-rate schedule is StepLR with step size 1 and the literal
decay factor 0.97; the configured `gamma` value has no effect on anything
`configure_optimizers` builds, and the learning rate in force is multiplied
by exactly 0.97 once per epoch for the whole run. -/
theorem scheduler_ignores_gamma (a : Args) (g : ℚ) (e : ℕ) :
    (configure_optimizers a).2 = { step_size := 1, gamma := 97/100 } ∧
    configure_optimizers { a with gamma := g } = configure_optimizers a ∧
    lrAt a (e + 1) = (97/100) * lrAt a e := by
  refine ⟨rfl, rfl, ?_⟩
  simp [lrAt, stepLRAt, configure_optimizers, pow_succ]
  ring

/-- C8: for every batch, the training step logs exactly the two metrics
`train_loss` (the criterion applied to the forward pass) and `train_acc`
(top-1 accuracy) and returns the loss; the validation step performs the same
computation, logs exactly `val_loss` and `val_acc`, and returns no value. -/
theorem steps_log_metrics_and_return (m : CIFAR10Classifier) (b : Batch) :
    training_step m b
      = { logs := [ ("train_loss", m.criterion (m.model b.images) b.targets),
                    ("train_acc", accuracy (m.model b.images) b.targets) ],
          ret := some (m.criterion (m.model b.images) b.targets) } ∧
    validation_step m b
      = { logs := [ ("val_loss", m.criterion (m.model b.images) b.targets),
                    ("val_acc", accuracy (m.model b.images) b.targets) ],
          ret := none } :=
  ⟨rfl, rfl⟩

/-- C9: the deficit-removal effect is idempotent: the filter applied to a
pipeline already free of blur steps returns it unchanged, and firing the
hook's effect twice yields the same pipeline as firing it once. -/
theorem removeCataract_idempotent (p : List Transform) (t0 : ℕ) (s : TrainState)
    (hp : Transform.downUpSample ∉ p) :
    removeCataract p = p ∧
    removeCataract (removeCataract p) = removeCataract p ∧
    (on_train_epoch_start t0 t0 (on_train_epoch_start t0 t0 s)).trainTransform
      = (on_train_epoch_start t0 t0 s).trainTransform := by
  refine ⟨?_, ?_, ?_⟩
  · rw [removeCataract, List.filter_eq_self]
    intro a ha
    simp only [ne_eq, decide_eq_true_eq]
    intro hcontra
    exact hp (hcontra ▸ ha)
  · simp [removeCataract, List.filter_filter]
  · simp only [on_train_epoch_start, if_pos rfl]
    simp [removeCataract, List.filter_filter]

/-- C9 witness: the blur-free pipeline produced from the initial training
pipeline is a fixed point of the filter, and a second hook firing changes
nothing. -/
theorem removeCataract_idempotent_witness :
    removeCataract test_transforms = test_transforms ∧
    removeCataract (removeCataract test_transforms) = removeCataract test_transforms ∧
    (on_train_epoch_start 0 0 (on_train_epoch_start 0 0 sampleState)).trainTransform
      = (on_train_epoch_start 0 0 sampleState).trainTransform :=
  removeCataract_idempotent test_transforms 0 sampleState (by decide)

/-- C10: the hook's frame: at every epoch (firing or not) the hook leaves the
evaluation dataset's transform pipeline, the model parameters and every
configuration value unchanged — only the training dataset's transform field
may change. -/
theorem hook_frame (t0 e : ℕ) (s : TrainState) :
    (on_train_epoch_start t0 e s).valTransform = s.valTransform ∧
    (on_train_epoch_start t0 e s).modelParams = s.modelParams ∧
    (on_train_epoch_start t0 e s).config = s.config := by
  unfold on_train_epoch_start
  split <;> exact ⟨rfl, rfl, rfl⟩

end CriticalPeriod
